import Mathlib

/-
Shallow embedding of the HackHobby-Lab/Noor audio-navigation player.

The repository holds three variants of the same ESP32 firmware:
  * src/noor_v1/main/main.c            ("v1", ISR encoder, polling audio task)
  * src/noor_v2/main/main.c            ("v2", announcements via polling flag)
  * src/Noor_RTOS_version/main/main.c  ("RTOS", announcements via task notifications)

Each definition below is translated from one of those files; the comment above a
definition names the function and lines it embeds.  C `int`/`int32_t` arithmetic
is modelled with `Int` (all quantities involved stay far below 2^31, which is
itself one of the proved facts), `uint32_t` millisecond timestamps with `Nat`
(time is monotone in every run, so the wrapping subtraction `now - last`
coincides with truncated `Nat` subtraction), and C strings with `List Char`.
-/

/- ------------------------------------------------------------------ -/
/- Volume control and sample scaling                                   -/
/- ------------------------------------------------------------------ -/

/-- `clip16` from Noor_RTOS_version/main/main.c lines 110-114 (identical in all
three variants): clamp a 32-bit intermediate sample to the int16 range. -/
def clip16 (s : Int) : Int :=
  if s > 32767 then 32767
  else if s < -32768 then -32768
  else s

/-- The per-sample scaling step of `stream_file_interruptible`
(Noor_RTOS_version/main/main.c lines 332-335):
`scaled = ((int32_t)samps[i] * vol) / 100; samps[i] = clip16(scaled);`.
C integer division truncates toward zero, hence `Int.tdiv`. -/
def scaleSample (s vol : Int) : Int := clip16 (Int.tdiv (s * vol) 100)

/-- Vol+ handler, Noor_RTOS_version/main/main.c lines 696-700:
`g_volume_percent += 10; if (g_volume_percent > 200) g_volume_percent = 200;`. -/
def volUp (v : Int) : Int :=
  if v + 10 > 200 then 200 else v + 10

/-- Vol- handler, Noor_RTOS_version/main/main.c lines 701-705:
`g_volume_percent -= 10; if (g_volume_percent < 0) g_volume_percent = 0;`. -/
def volDown (v : Int) : Int :=
  if v - 10 < 0 then 0 else v - 10

/-- A volume-button press (the only two writers of `g_volume_percent`). -/
inductive VolBtn
  | up
  | down
deriving DecidableEq

/-- Effect of a sequence of volume-button presses on `g_volume_percent`
(initial value 100, Noor_RTOS_version/main/main.c line 77). -/
def volApply : List VolBtn → Int → Int
  | [], v => v
  | b :: bs, v =>
    volApply bs (match b with
      | VolBtn.up => volUp v
      | VolBtn.down => volDown v)

/-- `n` consecutive Vol+ presses. -/
def volUpN : Nat → Int → Int
  | 0, v => v
  | n + 1, v => volUpN n (volUp v)

/-- `n` consecutive Vol- presses. -/
def volDownN : Nat → Int → Int
  | 0, v => v
  | n + 1, v => volDownN n (volDown v)

/- ------------------------------------------------------------------ -/
/- Play/Pause press handling in the track list                         -/
/- ------------------------------------------------------------------ -/

/-- The control words touched by the NAV_FILE_VIEW Play/Pause branch of the
RTOS variant (Noor_RTOS_version/main/main.c). -/
structure PlayCtl where
  gPlaying : Bool
  gPause : Bool
  playingTrack : Int
  currentTrack : Int
  numTracks : Nat
  stopFlag : Bool
deriving DecidableEq

/-- NAV_FILE_VIEW branch of the Play/Pause button handler,
Noor_RTOS_version/main/main.c lines 657-679.  The encoder-switch handler
(lines 442-464) executes the same statements.  The second component is the
`xTaskNotify(audio_task_handle, current_track + 1, eSetValueWithOverwrite)`
payload when one is sent (`none` means no notification, i.e. no new stream
request reaches the audio task). -/
def playPressFileView (c : PlayCtl) : PlayCtl × Option Int :=
  if c.gPlaying = false then
    if 0 < c.numTracks then
      ({ c with playingTrack := c.currentTrack, gPlaying := true,
                gPause := false, stopFlag := true },
       some (c.currentTrack + 1))
    else (c, none)
  else if c.playingTrack = c.currentTrack then
    ({ c with gPause := !c.gPause }, none)
  else
    ({ c with playingTrack := c.currentTrack, gPause := false, stopFlag := true },
     some (c.currentTrack + 1))

/-- The control words touched by the NAV_FILE_VIEW Play/Pause branch of v1
(noor_v1/main/main.c); v1 signals the audio task through
`track_change_request` instead of a notification. -/
structure PlayCtlV1 where
  gPlaying : Bool
  gPause : Bool
  playingTrack : Int
  currentTrack : Int
  numTracks : Nat
  trackChangeRequest : Bool
deriving DecidableEq

/-- NAV_FILE_VIEW branch of the Play/Pause button handler,
noor_v1/main/main.c lines 504-524 (the encoder-switch handler, lines 302-321,
executes the same statements; noor_v2 lines 628-638 are identical as well). -/
def playPressFileViewV1 (c : PlayCtlV1) : PlayCtlV1 :=
  if c.gPlaying = false then
    if 0 < c.numTracks then
      { c with playingTrack := c.currentTrack, gPlaying := true,
               gPause := false, trackChangeRequest := true }
    else c
  else if c.playingTrack = c.currentTrack then
    { c with gPause := !c.gPause }
  else
    { c with playingTrack := c.currentTrack, gPause := false,
             trackChangeRequest := true }

/- ------------------------------------------------------------------ -/
/- request_announcement                                                -/
/- ------------------------------------------------------------------ -/

/-- Shared state visible to `request_announcement` in noor_v2. -/
structure StV2 where
  announceRequest : Bool
  announcePath : List Char
  gPlaying : Bool
  gPause : Bool
  playingTrack : Int
  currentTrack : Int
  trackChangeRequest : Bool
  volume : Int
deriving DecidableEq

/-- `request_announcement` from noor_v2/main/main.c lines 333-339:
`if (!path) return; strncpy(announce_path, path, 255); announce_path[255]=0;
announce_request = true;`.  `strncpy` with size `ANNOUNCE_PATH_MAX-1 = 255`
stores the first 255 characters of the path. -/
def request_announcement_v2 : Option (List Char) → StV2 → StV2
  | none, st => st
  | some p, st =>
    { st with announcePath := p.take 255, announceRequest := true }

/-- Shared state visible to `request_announcement` in the RTOS variant;
`notifyAnnounceBit` models `NOTIFY_ANNOUNCE_BIT` being OR-ed into the audio
task's notification value by `xTaskNotify(..., eSetBits)`. -/
structure StR where
  announcePath : List Char
  stopFlag : Bool
  notifyAnnounceBit : Bool
  gPlaying : Bool
  gPause : Bool
  playingTrack : Int
  volume : Int
deriving DecidableEq

/-- `request_announcement` from Noor_RTOS_version/main/main.c lines 352-361:
it copies the path, then sets `stop_flag = true` ("interrupt any current
playback/announcement") and notifies the audio task with
`NOTIFY_ANNOUNCE_BIT`. -/
def request_announcement_rtos : Option (List Char) → StR → StR
  | none, st => st
  | some p, st =>
    { st with announcePath := p.take 255, stopFlag := true,
              notifyAnnounceBit := true }

/- ------------------------------------------------------------------ -/
/- The streaming chunk loop                                            -/
/- ------------------------------------------------------------------ -/

/-- How a streaming loop iteration ends the whole stream. -/
inductive StreamEnd
  | completed
  | aborted
deriving DecidableEq

/-- Result of one iteration of a streaming chunk loop.  `pos` counts chunks
already consumed from the file ("file position"); a `wrote` result carries the
new position, `rewoundTo` carries the position after an `fseek` back into the
data section. -/
inductive ChunkStep
  | ended (e : StreamEnd)
  | pausedAt (pos : Nat)
  | rewoundTo (pos : Nat)
  | wrote (pos : Nat)
deriving DecidableEq

/-- One iteration of the `while (1)` loop of `stream_file_interruptible`,
Noor_RTOS_version/main/main.c lines 312-343: stop flag checked first (break =
return Aborted), then pause (sleep and re-check), then `fread`; `bytes_read ==
0` breaks the loop (return Completed), otherwise the chunk is scaled and
written.  `fileLen` is the number of chunks in the data section, so the read
returns 0 iff `fileLen ≤ pos`. -/
def rtos_chunk_step (fileLen : Nat) (stop pause : Bool) (pos : Nat) : ChunkStep :=
  if stop then ChunkStep.ended StreamEnd.aborted
  else if pause then ChunkStep.pausedAt pos
  else if fileLen ≤ pos then ChunkStep.ended StreamEnd.completed
  else ChunkStep.wrote (pos + 1)

/-- One iteration of the `while (1)` loop of `stream_file_interruptible`,
noor_v2/main/main.c lines 303-324 (same as the RTOS loop but without a pause
flag). -/
def v2_chunk_step (fileLen : Nat) (stop : Bool) (pos : Nat) : ChunkStep :=
  if stop then ChunkStep.ended StreamEnd.aborted
  else if fileLen ≤ pos then ChunkStep.ended StreamEnd.completed
  else ChunkStep.wrote (pos + 1)

/-- One iteration of v1's inlined streaming loop, noor_v1/main/main.c lines
409-430: `while (g_playing)`, `track_change_request` breaks, `g_stop_and_rewind`
seeks back to the data offset and falls through, pause idles, and a 0-byte read
performs `fseek(f, data_offset, SEEK_SET); continue;` — it rewinds instead of
ending the loop. -/
def v1_chunk_step (fileLen : Nat) (gPlaying trackChange stopRewind pause : Bool)
    (pos : Nat) : ChunkStep :=
  if gPlaying = false then ChunkStep.ended StreamEnd.aborted
  else if trackChange then ChunkStep.ended StreamEnd.aborted
  else
    let pos1 := if stopRewind then 0 else pos
    if pause then ChunkStep.pausedAt pos1
    else if fileLen ≤ pos1 then ChunkStep.rewoundTo 0
    else ChunkStep.wrote (pos1 + 1)

/- ------------------------------------------------------------------ -/
/- The audio task's handling of a play command                         -/
/- ------------------------------------------------------------------ -/

/-- The three ways opening/parsing a WAV file can fail in
`stream_file_interruptible` (missing file, unparsable header, non-16-bit
format); `none` below stands for a file that opens and parses fine. -/
inductive StreamFail
  | notFound
  | badHeader
  | unsupported
deriving DecidableEq

/-- Control words of the RTOS audio task. -/
structure RtosAudio where
  gPlaying : Bool
  gPause : Bool
  playingTrack : Int
  stopFlag : Bool
deriving DecidableEq

/-- The numeric-payload branch of `audio_task`, Noor_RTOS_version/main/main.c
lines 535-560.  `payload` is the notification value (`track index + 1`),
`o` classifies the attempted file (`some _` = the stream call fails
immediately, `none` = it runs), `stopDuring` is the value of `stop_flag` when
the stream call returns.  The boolean result of `stream_file_interruptible` is
never inspected by the caller, so the post-state cannot depend on `o`; after
the stream call both the `stop_flag` branch and the else branch set
`g_playing = false; playing_track = -1;` and the task returns to
`xTaskNotifyWait`.  The second component is the index handed to
`stream_file_interruptible` (none = no stream attempted this iteration). -/
def rtos_audio_play (numTracks : Nat) (payload : Nat) (o : Option StreamFail)
    (stopDuring : Bool) (st : RtosAudio) : RtosAudio × Option Int :=
  let idx : Int := (payload : Int) - 1
  if idx < 0 ∨ (numTracks : Int) ≤ idx then (st, none)
  else
    let st1 : RtosAudio :=
      { st with stopFlag := false, playingTrack := idx, gPlaying := true,
                gPause := false }
    let st2 : RtosAudio := { st1 with stopFlag := stopDuring }
    (match o with
      | some _ => ({ st2 with gPlaying := false, playingTrack := -1 }, some idx)
      | none => ({ st2 with gPlaying := false, playingTrack := -1 }, some idx))

/-- Control words of v1's polling audio task. -/
structure V1Audio where
  gPlaying : Bool
  gPause : Bool
  playingTrack : Int
  navFileView : Bool
  numTracks : Nat
deriving DecidableEq

/-- One iteration of v1's `audio_task` up to and including a failed
open/parse, noor_v1/main/main.c lines 363-381: the guards (`g_playing`,
`nav_state`, `num_tracks`, index bounds) and the three failure branches, each
of which does `fclose`-and-`vTaskDelay(500)`-and-`continue` WITHOUT clearing
`g_playing` or `playing_track`.  The second component is the track index whose
file this iteration attempted to open (`none` = nothing attempted). -/
def v1_audio_iter_fail (o : StreamFail) (st : V1Audio) : V1Audio × Option Int :=
  if st.gPlaying = false then (st, none)
  else if st.navFileView = false then
    ({ st with gPlaying := false, playingTrack := -1 }, none)
  else if st.numTracks = 0 then (st, none)
  else if st.playingTrack < 0 ∨ (st.numTracks : Int) ≤ st.playingTrack then
    ({ st with gPlaying := false, playingTrack := -1 }, none)
  else
    match o with
    | StreamFail.notFound => (st, some st.playingTrack)
    | StreamFail.badHeader => (st, some st.playingTrack)
    | StreamFail.unsupported => (st, some st.playingTrack)

/- ------------------------------------------------------------------ -/
/- Audio-device operation traces                                       -/
/- ------------------------------------------------------------------ -/

/-- Operations a stream call performs on the single audio output device:
`configure` = successful `i2s_driver_install` (+ pin/clock setup), `write` =
`i2s_write` of one chunk, `release` = `i2s_driver_uninstall`. -/
inductive DevOp
  | configure
  | write
  | release
deriving DecidableEq

/-- Outcome parameters of one `stream_file_interruptible` call
(Noor_RTOS_version/main/main.c lines 278-349): whether `fopen`, header parse,
the 16-bit check, `i2s_driver_install`, `i2s_set_pin` and the chunk-buffer
`malloc` succeed, and how many loop iterations reach `i2s_write` before the
loop exits (by stop flag or end of file). -/
structure StreamParams where
  fileOk : Bool
  headerOk : Bool
  bits16 : Bool
  installOk : Bool
  setPinOk : Bool
  allocOk : Bool
  nWrites : Nat
deriving DecidableEq

/-- Device operations performed by one `stream_file_interruptible` call,
following the exit paths of Noor_RTOS_version/main/main.c lines 278-349:
failures before `i2s_driver_install` touch the device not at all; a failed
install leaves the device unconfigured; a failed `i2s_set_pin` or `malloc`
uninstalls immediately; otherwise the loop writes chunks and the epilogue
(lines 345-348) uninstalls on EVERY exit, including the stop-flag break. -/
def stream_ops (p : StreamParams) : List DevOp :=
  if p.fileOk = false then []
  else if p.headerOk = false then []
  else if p.bits16 = false then []
  else if p.installOk = false then []
  else if p.setPinOk = false then [DevOp.configure, DevOp.release]
  else if p.allocOk = false then [DevOp.configure, DevOp.release]
  else DevOp.configure :: (List.replicate p.nWrites DevOp.write ++ [DevOp.release])

/-- Legality of one device operation in a given device state (`true` = the
device is currently configured): configuring an already-configured device,
writing to or releasing an unconfigured one, are violations (`none`). -/
def devStep : Bool → DevOp → Option Bool
  | false, DevOp.configure => some true
  | true, DevOp.write => some true
  | true, DevOp.release => some false
  | _, _ => none

/-- Run a device-operation trace from a device state; `none` = some operation
overlapped an open configure/write/release sequence. -/
def devRun : Bool → List DevOp → Option Bool
  | b, [] => some b
  | b, op :: ops =>
    match devStep b op with
    | some b1 => devRun b1 ops
    | none => none

/-- Device-operation trace of a sequence of stream calls.  All stream calls in
the program are issued sequentially from a single thread of control: the two
boot greetings in `app_main` (Noor_RTOS_version/main/main.c lines 587-588) run
before `audio_task` is created (line 605), and afterwards `audio_task`
(lines 514-562) is the only caller, invoking `stream_file_interruptible`
synchronously once per loop iteration. -/
def arbiter_ops : List StreamParams → List DevOp
  | [] => []
  | c :: cs => stream_ops c ++ arbiter_ops cs

/- ------------------------------------------------------------------ -/
/- The v2 arbiter as a labelled transition system                      -/
/- ------------------------------------------------------------------ -/

/-- Control location of the v2 audio task (noor_v2/main/main.c lines 483-532):
`top` = top of the `while (1)` loop; `streamTrack` = inside the chunk loop of
`stream_file_interruptible` called on a track (line 519); `postTrack` = after
that call returned, at the `if (announce_request)` check (line 522);
`streamAnn` = inside the chunk loop of the announcement stream (line 499). -/
inductive Pc
  | top
  | streamTrack
  | postTrack
  | streamAnn
deriving DecidableEq

/-- The shared control words of noor_v2 relevant to arbitration.  The
announcement path itself plays no role in the priority argument and is
omitted. -/
structure Sys where
  pc : Pc
  announceRequest : Bool
  gPlaying : Bool
  playingTrack : Int
  navFileView : Bool
  numTracks : Nat
deriving DecidableEq

/-- Transition labels: `env*` are actions of the other tasks
(`request_announcement` from the encoder/main task, and the play-intent writes
of the Play/Pause handlers); the rest are the audio task's own steps.
`trackStop` is the chunk loop observing `announce_request` and breaking out,
i.e. the track stream returning Aborted. -/
inductive Lbl
  | envRequestAnn
  | envPlay (idx : Int)
  | arbIdle
  | arbStartAnn
  | arbDropNav
  | arbDropEmpty
  | arbDropIdx
  | arbStartTrack
  | trackWrite
  | trackEof
  | trackStop
  | postAnn
  | postNone
  | annWrite
  | annEof
  | annStop
deriving DecidableEq

/-- Small-step semantics of noor_v2's arbitration (audio_task, lines 483-532;
request_announcement, lines 333-339; play-intent writes, lines 425-431 and
628-638).  Each step is one volatile-flag read together with the statements
the reading task executes before its next flag read; environment steps may
interleave anywhere. -/
inductive Step : Sys → Lbl → Sys → Prop
  | envRequestAnn (s : Sys) :
      Step s Lbl.envRequestAnn { s with announceRequest := true }
  | envPlay (s : Sys) (idx : Int) :
      Step s (Lbl.envPlay idx) { s with gPlaying := true, playingTrack := idx }
  | arbIdle (s : Sys) (h1 : s.pc = Pc.top) (h2 : s.announceRequest = false)
      (h3 : s.gPlaying = false) :
      Step s Lbl.arbIdle s
  | arbStartAnn (s : Sys) (h1 : s.pc = Pc.top) (h2 : s.announceRequest = true) :
      Step s Lbl.arbStartAnn
        { s with pc := Pc.streamAnn, announceRequest := false, gPlaying := false }
  | arbDropNav (s : Sys) (h1 : s.pc = Pc.top) (h2 : s.announceRequest = false)
      (h3 : s.gPlaying = true) (h4 : s.navFileView = false) :
      Step s Lbl.arbDropNav { s with gPlaying := false, playingTrack := -1 }
  | arbDropEmpty (s : Sys) (h1 : s.pc = Pc.top) (h2 : s.announceRequest = false)
      (h3 : s.gPlaying = true) (h4 : s.navFileView = true)
      (h5 : s.numTracks = 0) :
      Step s Lbl.arbDropEmpty { s with gPlaying := false }
  | arbDropIdx (s : Sys) (h1 : s.pc = Pc.top) (h2 : s.announceRequest = false)
      (h3 : s.gPlaying = true) (h4 : s.navFileView = true)
      (h5 : 0 < s.numTracks)
      (h6 : s.playingTrack < 0 ∨ (s.numTracks : Int) ≤ s.playingTrack) :
      Step s Lbl.arbDropIdx { s with gPlaying := false, playingTrack := -1 }
  | arbStartTrack (s : Sys) (h1 : s.pc = Pc.top) (h2 : s.announceRequest = false)
      (h3 : s.gPlaying = true) (h4 : s.navFileView = true)
      (h5 : 0 < s.numTracks) (h6 : 0 ≤ s.playingTrack)
      (h7 : s.playingTrack < (s.numTracks : Int)) :
      Step s Lbl.arbStartTrack { s with pc := Pc.streamTrack }
  | trackWrite (s : Sys) (h1 : s.pc = Pc.streamTrack)
      (h2 : s.announceRequest = false) :
      Step s Lbl.trackWrite s
  | trackEof (s : Sys) (h1 : s.pc = Pc.streamTrack)
      (h2 : s.announceRequest = false) :
      Step s Lbl.trackEof { s with pc := Pc.postTrack }
  | trackStop (s : Sys) (h1 : s.pc = Pc.streamTrack)
      (h2 : s.announceRequest = true) :
      Step s Lbl.trackStop { s with pc := Pc.postTrack }
  | postAnn (s : Sys) (h1 : s.pc = Pc.postTrack)
      (h2 : s.announceRequest = true) :
      Step s Lbl.postAnn { s with pc := Pc.top, gPlaying := false, playingTrack := -1 }
  | postNone (s : Sys) (h1 : s.pc = Pc.postTrack)
      (h2 : s.announceRequest = false) :
      Step s Lbl.postNone { s with pc := Pc.top }
  | annWrite (s : Sys) (h1 : s.pc = Pc.streamAnn)
      (h2 : s.announceRequest = false) :
      Step s Lbl.annWrite s
  | annEof (s : Sys) (h1 : s.pc = Pc.streamAnn)
      (h2 : s.announceRequest = false) :
      Step s Lbl.annEof { s with pc := Pc.top }
  | annStop (s : Sys) (h1 : s.pc = Pc.streamAnn)
      (h2 : s.announceRequest = true) :
      Step s Lbl.annStop { s with pc := Pc.top }

/-- A finite labelled execution. -/
inductive Trace : Sys → List Lbl → Sys → Prop
  | nil (s : Sys) : Trace s [] s
  | cons {s s1 s2 : Sys} {l : Lbl} {ls : List Lbl} :
      Step s l s1 → Trace s1 ls s2 → Trace s (l :: ls) s2

/- ------------------------------------------------------------------ -/
/- Rotary-step debounce                                                -/
/- ------------------------------------------------------------------ -/

/-- Rotary-step debounce of `encoder_task` (Noor_RTOS_version/main/main.c
lines 386-390, identical in noor_v1 lines 277-282 and noor_v2 lines 364-368):
`if (now - last_step_time < ENC_STEP_DEBOUNCE_MS) continue; last_step_time =
now;` with `ENC_STEP_DEBOUNCE_MS = 60`.  Input: the (monotone) millisecond
timestamps of the raw CLK edges; `last` is `last_step_time`, initially 0;
output: the timestamps of the accepted steps. -/
def debounce_fold : Nat → List Nat → List Nat
  | _, [] => []
  | last, t :: ts =>
    if t - last < 60 then debounce_fold last ts
    else t :: debounce_fold t ts

/- ------------------------------------------------------------------ -/
/- Story-announcement selection                                        -/
/- ------------------------------------------------------------------ -/

/-- `make_path` (Noor_RTOS_version/main/main.c lines 116-122):
`sprintf(p, "%s/%s", dir, name)`. -/
def make_path (dir name : List Char) : List Char := dir ++ '/' :: name

/-- Split a path at its LAST '/' (the two `strrchr(fullname, '/')` calls in
encoder_task): `some (dir, base)` where `dir` is everything before the last
slash and `base` everything after it; `none` when the path has no slash. -/
def lastSlashSplit : List Char → Option (List Char × List Char)
  | [] => none
  | c :: rest =>
    match lastSlashSplit rest with
    | some pr => some (c :: pr.1, pr.2)
    | none => if c = '/' then some ([], rest) else none

/-- `isdigit((unsigned char)b[1])` for ASCII. -/
def isdigitC (c : Char) : Bool := 48 ≤ c.toNat && c.toNat ≤ 57

/-- The story-name test `(b[0]=='S' || b[0]=='s') && isdigit((unsigned
char)b[1])` (Noor_RTOS_version/main/main.c line 415) applied to a base name;
a name shorter than 2 characters fails it (its second byte is the NUL
terminator, which is not a digit). -/
def storyPattern : List Char → Bool
  | c0 :: c1 :: _ => (c0 == 'S' || c0 == 's') && isdigitC c1
  | _ => false

/-- `n = b[1] - '0'` (Noor_RTOS_version/main/main.c line 416). -/
def storyDigit : List Char → Nat
  | _ :: c1 :: _ => c1.toNat - 48
  | _ => 0

/-- `snprintf(storyname, 32, "story%d.wav", n)` for the single digit `n`. -/
def storyFile (n : Nat) : List Char :=
  ("story").data ++ [Char.ofNat (48 + n)] ++ (".wav").data

/-- `snprintf(candidate_root, 256, "/sdcard/story%d.wav", n)`. -/
def rootCand (n : Nat) : List Char := ("/sdcard/").data ++ storyFile n

/-- The story-announcement selection performed on a newly selected track,
Noor_RTOS_version/main/main.c lines 412-435 (the same block appears at lines
479-503 and 631-655, and in noor_v2 at lines 391-415, 447-472, 601-626):
take the base name after the last '/', test the S<digit> pattern, try
`/sdcard/story<n>.wav` first, then — only when the path contains a slash and
the directory part is shorter than `ANNOUNCE_PATH_MAX = 256` —
`<dir>/story<n>.wav`; request the first candidate that exists (`ex` is the
`access(..., F_OK) == 0` oracle), otherwise request nothing. -/
def selectStory (ex : List Char → Bool) (full : List Char) : Option (List Char) :=
  let b := match lastSlashSplit full with
           | some pr => pr.2
           | none => full
  if storyPattern b then
    let n := storyDigit b
    if ex (rootCand n) then some (rootCand n)
    else
      match lastSlashSplit full with
      | some pr =>
        if pr.1.length < 256 then
          let cand := make_path pr.1 (storyFile n)
          if ex cand then some cand else none
        else none
      | none => none
  else none

/-- Concrete directory part used to exhibit the ANNOUNCE_PATH_MAX corner: a
folder whose name is 250 characters long, so the directory part of its tracks
is 258 ≥ 256 characters. -/
def c8dir : List Char := ("/sdcard/").data ++ List.replicate 250 'a'

/-- A track inside that folder whose name matches the story pattern. -/
def c8full : List Char := c8dir ++ '/' :: ("S1.wav").data

/-- The in-folder announcement candidate for that track. -/
def c8cand : List Char := c8dir ++ '/' :: ("story1.wav").data

/-- A filesystem on which the in-folder candidate exists and nothing else
(in particular `/sdcard/story1.wav` does not). -/
def c8fs (p : List Char) : Bool := p == c8cand

/- ------------------------------------------------------------------ -/
/- Directory scans                                                     -/
/- ------------------------------------------------------------------ -/

/-- `struct dirent` type classification as used by the scans (`DT_DIR`,
`DT_REG`, `DT_UNKNOWN`, anything else). -/
inductive DType
  | dir
  | reg
  | unknown
  | other
deriving DecidableEq

/-- A directory entry as returned by `readdir`. -/
structure DirEnt where
  name : List Char
  dtype : DType
deriving DecidableEq

/-- `strcmp(entry->d_name, ".") == 0 || strcmp(entry->d_name, "..") == 0`. -/
def isDotEntry (n : List Char) : Bool := n == ['.'] || n == ['.', '.']

/-- The `is_dir` computation of `scan_root_folders`
(Noor_RTOS_version/main/main.c lines 142-150): `DT_DIR` counts, `DT_UNKNOWN`
falls back to `stat`/`S_ISDIR` (`sd` is that oracle on full paths). -/
def entryIsDir (sd : List Char → Bool) (path : List Char) (e : DirEnt) : Bool :=
  match e.dtype with
  | DType.dir => true
  | DType.unknown => sd (make_path path e.name)
  | _ => false

/-- The `is_file` computation of `scan_wavs_in_folder` (lines 171-179):
`DT_REG` counts, `DT_UNKNOWN` falls back to `stat`/`S_ISREG`. -/
def entryIsReg (sr : List Char → Bool) (path : List Char) (e : DirEnt) : Bool :=
  match e.dtype with
  | DType.reg => true
  | DType.unknown => sr (make_path path e.name)
  | _ => false

/-- ASCII `tolower` as used by `strcasecmp`. -/
def lowerC (c : Char) : Char :=
  if 65 ≤ c.toNat && c.toNat ≤ 90 then Char.ofNat (c.toNat + 32) else c

/-- The extension test of `scan_wavs_in_folder` (lines 181-185): names of
length ≤ 4 are skipped, otherwise the last four characters must equal ".wav"
case-insensitively. -/
def hasWavExt (n : List Char) : Bool :=
  4 < n.length && (n.drop (n.length - 4)).map lowerC == (".wav").data

/-- An entry `scan_root_folders` keeps. -/
def keepFolder (sd : List Char → Bool) (path : List Char) (e : DirEnt) : Bool :=
  !isDotEntry e.name && entryIsDir sd path e

/-- An entry `scan_wavs_in_folder` keeps. -/
def keepWav (sr : List Char → Bool) (path : List Char) (e : DirEnt) : Bool :=
  !isDotEntry e.name && entryIsReg sr path e && hasWavExt e.name

/-- The `while ((entry = readdir(d)) != NULL && found < MAX_FOLDERS)` loop of
`scan_root_folders` (Noor_RTOS_version/main/main.c lines 134-161,
`MAX_FOLDERS = 32`), over the stream of entries `readdir` would deliver;
`found` is the running counter.  Once `found` reaches 32 the loop condition
fails and the remaining entries are never read. -/
def scanFoldersAux (sd : List Char → Bool) (path : List Char) :
    List DirEnt → Nat → List (List Char)
  | [], _ => []
  | e :: es, found =>
    if found < 32 then
      if keepFolder sd path e then
        make_path path e.name :: scanFoldersAux sd path es (found + 1)
      else scanFoldersAux sd path es found
    else []

/-- `scan_root_folders` (lines 134-161): result is the folder list it builds. -/
def scan_root_folders (sd : List Char → Bool) (path : List Char)
    (es : List DirEnt) : List (List Char) :=
  scanFoldersAux sd path es 0

/-- The analogous loop of `scan_wavs_in_folder` (lines 163-195,
`MAX_WAV_FILES = 64`). -/
def scanWavsAux (sr : List Char → Bool) (path : List Char) :
    List DirEnt → Nat → List (List Char)
  | [], _ => []
  | e :: es, found =>
    if found < 64 then
      if keepWav sr path e then
        make_path path e.name :: scanWavsAux sr path es (found + 1)
      else scanWavsAux sr path es found
    else []

/-- `scan_wavs_in_folder` (lines 163-195): result is the WAV list it builds. -/
def scan_wavs_in_folder (sr : List Char → Bool) (path : List Char)
    (es : List DirEnt) : List (List Char) :=
  scanWavsAux sr path es 0

/- ================================================================== -/
/- Theorems                                                            -/
/- ================================================================== -/

/- ------------------------------------------------------------------ -/
/- Volume (C3)                                                         -/
/- ------------------------------------------------------------------ -/

lemma volUp_bounds (v : Int) (h0 : 0 ≤ v) (h2 : v ≤ 200) :
    0 ≤ volUp v ∧ volUp v ≤ 200 := by
  unfold volUp; split <;> omega

lemma volDown_bounds (v : Int) (h0 : 0 ≤ v) (h2 : v ≤ 200) :
    0 ≤ volDown v ∧ volDown v ≤ 200 := by
  unfold volDown; split <;> omega

lemma volApply_bounds : ∀ (bs : List VolBtn) (v : Int), 0 ≤ v → v ≤ 200 →
    0 ≤ volApply bs v ∧ volApply bs v ≤ 200 := by
  intro bs
  induction bs with
  | nil => intro v h0 h2; exact ⟨h0, h2⟩
  | cons b bs ih =>
    intro v h0 h2
    cases b with
    | up =>
      have hb := volUp_bounds v h0 h2
      simpa [volApply] using ih (volUp v) hb.1 hb.2
    | down =>
      have hb := volDown_bounds v h0 h2
      simpa [volApply] using ih (volDown v) hb.1 hb.2

lemma volUpN_formula : ∀ (n : Nat) (v : Int), 0 ≤ v → v ≤ 200 →
    volUpN n v = min (v + 10 * (n : Int)) 200 := by
  intro n
  induction n with
  | zero => intro v h0 h2; simp [volUpN]; omega
  | succ n ih =>
    intro v h0 h2
    have hb := volUp_bounds v h0 h2
    have := ih (volUp v) hb.1 hb.2
    rw [volUpN, this]
    unfold volUp
    split <;> push_cast <;> omega

lemma volDownN_formula : ∀ (n : Nat) (v : Int), 0 ≤ v → v ≤ 200 →
    volDownN n v = max (v - 10 * (n : Int)) 0 := by
  intro n
  induction n with
  | zero => intro v h0 h2; simp [volDownN]; omega
  | succ n ih =>
    intro v h0 h2
    have hb := volDown_bounds v h0 h2
    have := ih (volDown v) hb.1 hb.2
    rw [volDownN, this]
    unfold volDown
    split <;> push_cast <;> omega

lemma clip16_bounds (x : Int) : -32768 ≤ clip16 x ∧ clip16 x ≤ 32767 := by
  unfold clip16
  split
  · omega
  · split <;> omega

lemma sample_product_bounds (s v : Int) (hs1 : -32768 ≤ s) (hs2 : s ≤ 32767)
    (hv1 : 0 ≤ v) (hv2 : v ≤ 200) :
    -(2 ^ 31) < s * v ∧ s * v < 2 ^ 31 := by
  constructor <;> nlinarith

/-- C3: the process-wide volume (initial value 100, written only by the Vol+
and Vol- button handlers) stays within [0,200] under every press sequence;
`n` Vol+ presses from `v` yield `min (v+10n) 200` (so ≥ 10 presses saturate at
200) and `n` Vol- presses yield `max (v-10n) 0` (saturation at 0); and for
every int16 sample `s` and volume `v ∈ [0,200]` the scaled sample
`clip16((s*v)/100)` lies within [-32768, 32767] while the intermediate
product `s*v` stays strictly within the int32 range (no overflow). -/
theorem c3_volume_clamp :
    (∀ bs : List VolBtn, 0 ≤ volApply bs 100 ∧ volApply bs 100 ≤ 200) ∧
    (∀ (v : Int) (n : Nat), 0 ≤ v → v ≤ 200 →
      volUpN n v = min (v + 10 * (n : Int)) 200 ∧
      volDownN n v = max (v - 10 * (n : Int)) 0) ∧
    (∀ s v : Int, -32768 ≤ s → s ≤ 32767 → 0 ≤ v → v ≤ 200 →
      (-32768 ≤ scaleSample s v ∧ scaleSample s v ≤ 32767) ∧
      (-(2 ^ 31) < s * v ∧ s * v < 2 ^ 31)) := by
  refine ⟨fun bs => volApply_bounds bs 100 (by norm_num) (by norm_num),
    fun v n h0 h2 => ⟨volUpN_formula n v h0 h2, volDownN_formula n v h0 h2⟩,
    fun s v hs1 hs2 hv1 hv2 => ⟨clip16_bounds _, sample_product_bounds s v hs1 hs2 hv1 hv2⟩⟩

/-- Witness for C3 at concrete inputs: two presses from 100, 20 Vol+ presses
from 0 saturating at 200, and scaling of sample -32768 at volume 200. -/
theorem c3_volume_clamp_witness :
    (0 ≤ volApply [VolBtn.up, VolBtn.down] 100 ∧
      volApply [VolBtn.up, VolBtn.down] 100 ≤ 200) ∧
    (volUpN 20 (0 : Int) = min ((0 : Int) + 10 * (20 : Nat)) 200 ∧
      volDownN 20 (0 : Int) = max ((0 : Int) - 10 * (20 : Nat)) 0) ∧
    ((-32768 ≤ scaleSample (-32768) 200 ∧ scaleSample (-32768) 200 ≤ 32767) ∧
      (-(2 ^ 31) < (-32768 : Int) * 200 ∧ (-32768 : Int) * 200 < 2 ^ 31)) := by
  refine ⟨c3_volume_clamp.1 [VolBtn.up, VolBtn.down],
    c3_volume_clamp.2.1 0 20 (by norm_num) (by norm_num),
    c3_volume_clamp.2.2 (-32768) 200 (by norm_num) (by norm_num) (by norm_num) (by norm_num)⟩

/- ------------------------------------------------------------------ -/
/- Same-track play request (C4)                                        -/
/- ------------------------------------------------------------------ -/

/-- C4: in the track list, a play request (Play/Pause button or encoder
switch, which run the same statements) naming the track that is already
playing only toggles the pause flag and sends no notification /
track-change request to the audio task, i.e. no new stream() call is issued;
a request while nothing is playing (with a non-empty list) or for a different
index does send one; and conversely a stream request is only sent when
nothing was playing or the index differs.  Proved for the RTOS handler
(`playPressFileView`) and the v1/v2 handler (`playPressFileViewV1`). -/
theorem c4_same_track_toggles_pause :
    (∀ c : PlayCtl, c.gPlaying = true → c.playingTrack = c.currentTrack →
      playPressFileView c = ({ c with gPause := !c.gPause }, none)) ∧
    (∀ c : PlayCtl, c.gPlaying = false → 0 < c.numTracks →
      (playPressFileView c).2 = some (c.currentTrack + 1)) ∧
    (∀ c : PlayCtl, c.gPlaying = true → c.playingTrack ≠ c.currentTrack →
      (playPressFileView c).2 = some (c.currentTrack + 1)) ∧
    (∀ c : PlayCtl, (playPressFileView c).2 ≠ none →
      c.gPlaying = false ∨ c.playingTrack ≠ c.currentTrack) ∧
    (∀ c : PlayCtlV1, c.gPlaying = true → c.playingTrack = c.currentTrack →
      playPressFileViewV1 c = { c with gPause := !c.gPause }) ∧
    (∀ c : PlayCtlV1, c.gPlaying = true → c.playingTrack ≠ c.currentTrack →
      (playPressFileViewV1 c).trackChangeRequest = true) ∧
    (∀ c : PlayCtlV1, c.gPlaying = false → 0 < c.numTracks →
      (playPressFileViewV1 c).trackChangeRequest = true) := by
  refine ⟨?_, ?_, ?_, ?_, ?_, ?_, ?_⟩
  · intro c h1 h2; simp [playPressFileView, h1, h2]
  · intro c h1 h2; simp [playPressFileView, h1, h2]
  · intro c h1 h2; simp [playPressFileView, h1, h2]
  · intro c h
    by_contra hcon
    push_neg at hcon
    obtain ⟨hg, he⟩ := hcon
    have hg1 : c.gPlaying = true := by
      cases hgp : c.gPlaying with
      | false => exact absurd hgp hg
      | true => rfl
    exact h (by simp [playPressFileView, hg1, he])
  · intro c h1 h2; simp [playPressFileViewV1, h1, h2]
  · intro c h1 h2; simp [playPressFileViewV1, h1, h2]
  · intro c h1 h2; simp [playPressFileViewV1, h1, h2]

/-- Witness for C4 at concrete control states. -/
theorem c4_same_track_toggles_pause_witness :
    playPressFileView ⟨true, false, 2, 2, 3, false⟩ =
      (⟨true, true, 2, 2, 3, false⟩, none) ∧
    (playPressFileView ⟨false, false, -1, 1, 3, false⟩).2 = some 2 ∧
    (playPressFileView ⟨true, false, 0, 1, 3, false⟩).2 = some 2 ∧
    playPressFileViewV1 ⟨true, false, 2, 2, 3, false⟩ = ⟨true, true, 2, 2, 3, false⟩ := by
  refine ⟨?_, ?_, ?_, ?_⟩
  · exact c4_same_track_toggles_pause.1 ⟨true, false, 2, 2, 3, false⟩ rfl rfl
  · exact c4_same_track_toggles_pause.2.1 ⟨false, false, -1, 1, 3, false⟩ rfl (by norm_num)
  · exact c4_same_track_toggles_pause.2.2.1 ⟨true, false, 0, 1, 3, false⟩ rfl (by norm_num)
  · exact c4_same_track_toggles_pause.2.2.2.2.1 ⟨true, false, 2, 2, 3, false⟩ rfl rfl

/- ------------------------------------------------------------------ -/
/- request_announcement (C5)                                           -/
/- ------------------------------------------------------------------ -/

/-- C5 counterexample: in the RTOS variant, `request_announcement` does NOT
leave the stop/abort flag alone — called on a state whose `stop_flag` is
false, it sets it to true (Noor_RTOS_version/main/main.c line 357), refuting
"it does not itself set any stop/abort flag or stop the audio". -/
theorem c5_counterexample :
    (⟨[], false, false, true, false, 0, 100⟩ : StR).stopFlag = false ∧
    (request_announcement_rtos (some (("/sdcard/home.wav").data))
      ⟨[], false, false, true, false, 0, 100⟩).stopFlag = true := by
  exact ⟨rfl, rfl⟩

/-- C5 (amended): for every non-null path `p`, `request_announcement` stores
the first 255 characters of `p` as the pending announcement path (last-writer
wins: the stored path depends only on `p`, not on any earlier request) and
marks the announcement pending; in noor_v2 it modifies nothing else (stopping
is left to the Arbiter, triggered by the pending flag), while in the RTOS
variant it additionally sets the stop flag itself and leaves the remaining
shared state unchanged.  A null path changes nothing in either variant. -/
theorem c5_request_announcement_amended :
    (∀ (p : List Char) (st : StV2),
      (request_announcement_v2 (some p) st).announcePath = p.take 255 ∧
      (request_announcement_v2 (some p) st).announceRequest = true ∧
      (request_announcement_v2 (some p) st).gPlaying = st.gPlaying ∧
      (request_announcement_v2 (some p) st).gPause = st.gPause ∧
      (request_announcement_v2 (some p) st).playingTrack = st.playingTrack ∧
      (request_announcement_v2 (some p) st).currentTrack = st.currentTrack ∧
      (request_announcement_v2 (some p) st).trackChangeRequest = st.trackChangeRequest ∧
      (request_announcement_v2 (some p) st).volume = st.volume) ∧
    (∀ (p : List Char) (st1 st2 : StV2),
      (request_announcement_v2 (some p) st1).announcePath =
        (request_announcement_v2 (some p) st2).announcePath) ∧
    (∀ st : StV2, request_announcement_v2 none st = st) ∧
    (∀ (p : List Char) (st : StR),
      (request_announcement_rtos (some p) st).announcePath = p.take 255 ∧
      (request_announcement_rtos (some p) st).notifyAnnounceBit = true ∧
      (request_announcement_rtos (some p) st).stopFlag = true ∧
      (request_announcement_rtos (some p) st).gPlaying = st.gPlaying ∧
      (request_announcement_rtos (some p) st).gPause = st.gPause ∧
      (request_announcement_rtos (some p) st).playingTrack = st.playingTrack ∧
      (request_announcement_rtos (some p) st).volume = st.volume) ∧
    (∀ st : StR, request_announcement_rtos none st = st) := by
  refine ⟨?_, ?_, ?_, ?_, ?_⟩
  · intro p st
    refine ⟨rfl, rfl, rfl, rfl, rfl, rfl, rfl, rfl⟩
  · intro p st1 st2; rfl
  · intro st; rfl
  · intro p st
    refine ⟨rfl, rfl, rfl, rfl, rfl, rfl, rfl⟩
  · intro st; rfl

/- ------------------------------------------------------------------ -/
/- Failed stream calls (C6)                                            -/
/- ------------------------------------------------------------------ -/

/-- C6 counterexample: in noor_v1 a failed stream attempt IS retried.  With
one track, `g_playing` set and `playing_track = 0`, an iteration of
`audio_task` whose `fopen` fails leaves the state unchanged (in particular
`g_playing` stays true and `playing_track` stays 0), so the next iteration
attempts the very same file again — contradicting "the Arbiter loop continues
without retrying the same file". -/
theorem c6_counterexample :
    v1_audio_iter_fail StreamFail.notFound ⟨true, false, 0, true, 1⟩ =
      (⟨true, false, 0, true, 1⟩, some 0) ∧
    v1_audio_iter_fail StreamFail.notFound
        (v1_audio_iter_fail StreamFail.notFound ⟨true, false, 0, true, 1⟩).1 =
      (⟨true, false, 0, true, 1⟩, some 0) := by
  refine ⟨by decide, by decide⟩

/-- C6 (amended): in the RTOS variant the claim holds — `audio_task` never
inspects the stream call's result, so its post-state is identical for every
outcome (a failed stream is treated exactly like an immediately completed
one: the playing state is cleared and the task returns to waiting for the
next notification, so the same file is not retried and the loop keeps
running); in noor_v1 (and noor_v2) the failure branches leave `g_playing` and
`playing_track` untouched, so the polling loop re-attempts the same file
after a delay. -/
theorem c6_failed_stream_amended :
    (∀ (n p : Nat) (o o' : Option StreamFail) (b : Bool) (st : RtosAudio),
      rtos_audio_play n p o b st = rtos_audio_play n p o' b st) ∧
    (∀ (n p : Nat) (o : Option StreamFail) (b : Bool) (st : RtosAudio),
      1 ≤ p → p ≤ n →
      (rtos_audio_play n p o b st).1.gPlaying = false ∧
      (rtos_audio_play n p o b st).1.playingTrack = -1 ∧
      (rtos_audio_play n p o b st).2 = some ((p : Int) - 1)) ∧
    (∀ (o : StreamFail) (st : V1Audio),
      st.gPlaying = true → st.navFileView = true → st.numTracks ≠ 0 →
      0 ≤ st.playingTrack → st.playingTrack < (st.numTracks : Int) →
      v1_audio_iter_fail o st = (st, some st.playingTrack)) := by
  refine ⟨?_, ?_, ?_⟩
  · intro n p o o' b st
    cases o <;> cases o' <;> rfl
  · intro n p o b st h1 h2
    have hp0 : ¬(p = 0) := by omega
    have hn : ¬((n : Int) ≤ (p : Int) - 1) := by omega
    cases o <;> simp [rtos_audio_play, hp0, hn]
  · intro o st h1 h2 h3 h4 h5
    have hc : ¬(st.playingTrack < 0 ∨ (st.numTracks : Int) ≤ st.playingTrack) := by
      push_neg
      exact ⟨h4, h5⟩
    cases o <;> simp [v1_audio_iter_fail, h1, h2, h3, hc]

/-- Witness for C6 (amended) at concrete inputs. -/
theorem c6_failed_stream_amended_witness :
    rtos_audio_play 3 1 (some StreamFail.badHeader) false ⟨false, false, -1, true⟩ =
      rtos_audio_play 3 1 none false ⟨false, false, -1, true⟩ ∧
    ((rtos_audio_play 3 1 (some StreamFail.notFound) false ⟨false, false, -1, true⟩).1.gPlaying = false ∧
      (rtos_audio_play 3 1 (some StreamFail.notFound) false ⟨false, false, -1, true⟩).1.playingTrack = -1 ∧
      (rtos_audio_play 3 1 (some StreamFail.notFound) false ⟨false, false, -1, true⟩).2 = some ((1 : Int) - 1)) ∧
    v1_audio_iter_fail StreamFail.unsupported ⟨true, false, 1, true, 2⟩ =
      (⟨true, false, 1, true, 2⟩, some 1) := by
  refine ⟨c6_failed_stream_amended.1 3 1 (some StreamFail.badHeader) none false _,
    c6_failed_stream_amended.2.1 3 1 (some StreamFail.notFound) false _ (by norm_num) (by norm_num),
    c6_failed_stream_amended.2.2 StreamFail.unsupported ⟨true, false, 1, true, 2⟩
      rfl rfl (by norm_num) (by norm_num) (by norm_num)⟩

/- ------------------------------------------------------------------ -/
/- End of file ends the stream (C7)                                    -/
/- ------------------------------------------------------------------ -/

/-- C7 counterexample: in noor_v1's streaming loop a 0-byte read does NOT end
the loop — on a one-chunk file with the position already at end of file (and
playback active, no pending requests), the iteration rewinds to the data
offset instead of returning Completed, and the following iteration writes the
first chunk again (the file is replayed). -/
theorem c7_counterexample :
    v1_chunk_step 1 true false false false 1 = ChunkStep.rewoundTo 0 ∧
    v1_chunk_step 1 true false false false 1 ≠
      ChunkStep.ended StreamEnd.completed ∧
    v1_chunk_step 1 true false false false 0 = ChunkStep.wrote 1 := by
  refine ⟨by decide, by decide, by decide⟩

/-- C7 (amended): in the RTOS and v2 `stream_file_interruptible` chunk loops a
0-byte read (with the stop and pause flags clear) ends the loop with
Completed; these loops never move the position backwards (a write advances it
by exactly one chunk and no step rewinds), so the file is not replayed.  In
noor_v1's inlined loop, by contrast, a 0-byte read rewinds to the data offset
and continues, replaying the file until playback is stopped externally. -/
theorem c7_eof_completes_amended :
    (∀ fileLen pos : Nat, fileLen ≤ pos →
      rtos_chunk_step fileLen false false pos = ChunkStep.ended StreamEnd.completed) ∧
    (∀ fileLen pos : Nat, fileLen ≤ pos →
      v2_chunk_step fileLen false pos = ChunkStep.ended StreamEnd.completed) ∧
    (∀ (fileLen : Nat) (stop pause : Bool) (pos n : Nat),
      rtos_chunk_step fileLen stop pause pos = ChunkStep.wrote n → n = pos + 1) ∧
    (∀ (fileLen : Nat) (stop : Bool) (pos n : Nat),
      v2_chunk_step fileLen stop pos = ChunkStep.wrote n → n = pos + 1) ∧
    (∀ (fileLen : Nat) (stop pause : Bool) (pos q : Nat),
      rtos_chunk_step fileLen stop pause pos ≠ ChunkStep.rewoundTo q) ∧
    (∀ (fileLen : Nat) (stop : Bool) (pos q : Nat),
      v2_chunk_step fileLen stop pos ≠ ChunkStep.rewoundTo q) ∧
    (∀ (fileLen pos : Nat), fileLen ≤ pos →
      v1_chunk_step fileLen true false false false pos = ChunkStep.rewoundTo 0) := by
  refine ⟨?_, ?_, ?_, ?_, ?_, ?_, ?_⟩
  · intro fileLen pos h; simp [rtos_chunk_step, h]
  · intro fileLen pos h; simp [v2_chunk_step, h]
  · intro fileLen stop pause pos n h
    unfold rtos_chunk_step at h
    split at h
    · cases h
    · split at h
      · cases h
      · split at h
        · cases h
        · cases h; rfl
  · intro fileLen stop pos n h
    unfold v2_chunk_step at h
    split at h
    · cases h
    · split at h
      · cases h
      · cases h; rfl
  · intro fileLen stop pause pos q h
    unfold rtos_chunk_step at h
    split at h
    · cases h
    · split at h
      · cases h
      · split at h
        · cases h
        · cases h
  · intro fileLen stop pos q h
    unfold v2_chunk_step at h
    split at h
    · cases h
    · split at h
      · cases h
      · cases h
  · intro fileLen pos h
    simp [v1_chunk_step, h]

/-- Witness for C7 (amended) at concrete inputs. -/
theorem c7_eof_completes_amended_witness :
    rtos_chunk_step 3 false false 3 = ChunkStep.ended StreamEnd.completed ∧
    v2_chunk_step 3 false 3 = ChunkStep.ended StreamEnd.completed ∧
    rtos_chunk_step 5 false false 2 ≠ ChunkStep.rewoundTo 0 ∧
    v1_chunk_step 2 true false false false 2 = ChunkStep.rewoundTo 0 := by
  refine ⟨c7_eof_completes_amended.1 3 3 (by norm_num),
    c7_eof_completes_amended.2.1 3 3 (by norm_num),
    c7_eof_completes_amended.2.2.2.2.1 5 false false 2 0,
    c7_eof_completes_amended.2.2.2.2.2.2 2 2 (by norm_num)⟩

/- ------------------------------------------------------------------ -/
/- Single stream on the device (C2)                                    -/
/- ------------------------------------------------------------------ -/

lemma devRun_append : ∀ (a : List DevOp) (s : Bool) (b : List DevOp),
    devRun s (a ++ b) =
      (match devRun s a with
       | some s1 => devRun s1 b
       | none => none) := by
  intro a
  induction a with
  | nil => intro s b; rfl
  | cons op ops ih =>
    intro s b
    cases s <;> cases op <;> simp [devRun, devStep, ih]

lemma devRun_writes : ∀ n : Nat,
    devRun true (List.replicate n DevOp.write ++ [DevOp.release]) = some false := by
  intro n
  induction n with
  | zero => rfl
  | succ n ih => simpa [List.replicate_succ, devRun, devStep] using ih

lemma stream_ops_closed (p : StreamParams) :
    devRun false (stream_ops p) = some false := by
  unfold stream_ops
  split
  · rfl
  · split
    · rfl
    · split
      · rfl
      · split
        · rfl
        · split
          · rfl
          · split
            · rfl
            · simpa [devRun, devStep] using devRun_writes p.nWrites

/-- C2: for every sequence of stream calls the single audio task issues (and
it is the only caller: the boot greetings run before the task exists, and the
task calls `stream_file_interruptible` synchronously), the resulting trace of
audio-device operations is legal from a released device and ends with the
device released: every `configure` happens on an unconfigured device (so a new
stream's configure happens only after the previous stream's release), every
`write` and `release` happens on a configured one, and no
configure/write/release sequences overlap — at most one WAV stream is ever
being rendered. -/
theorem c2_single_stream :
    ∀ calls : List StreamParams, devRun false (arbiter_ops calls) = some false := by
  intro calls
  induction calls with
  | nil => rfl
  | cons c cs ih =>
    rw [arbiter_ops, devRun_append, stream_ops_closed c]
    exact ih

/- ------------------------------------------------------------------ -/
/- Rotary debounce (C9)                                                -/
/- ------------------------------------------------------------------ -/

lemma debounce_mem_lb : ∀ (last : Nat) (ts : List Nat) (x : Nat),
    x ∈ debounce_fold last ts → last + 60 ≤ x := by
  intro last ts
  induction ts generalizing last with
  | nil => intro x hx; simp [debounce_fold] at hx
  | cons t ts ih =>
    intro x hx
    unfold debounce_fold at hx
    split at hx
    · exact ih last x hx
    · rcases List.mem_cons.mp hx with h | h
      · omega
      · have := ih t x h
        omega

lemma debounce_mem_sub : ∀ (last : Nat) (ts : List Nat) (x : Nat),
    x ∈ debounce_fold last ts → x ∈ ts := by
  intro last ts
  induction ts generalizing last with
  | nil => intro x hx; simp [debounce_fold] at hx
  | cons t ts ih =>
    intro x hx
    unfold debounce_fold at hx
    split at hx
    · exact List.mem_cons_of_mem t (ih last x hx)
    · rcases List.mem_cons.mp hx with h | h
      · exact h ▸ List.mem_cons_self t ts
      · exact List.mem_cons_of_mem t (ih t x h)

lemma debounce_pairwise : ∀ (last : Nat) (ts : List Nat),
    (debounce_fold last ts).Pairwise (fun a b => a + 60 ≤ b) := by
  intro last ts
  induction ts generalizing last with
  | nil => simp [debounce_fold]
  | cons t ts ih =>
    unfold debounce_fold
    split
    · exact ih last
    · exact List.Pairwise.cons (fun x hx => debounce_mem_lb t ts x hx) (ih t)

lemma debounce_accept_of_late : ∀ (last : Nat) (ts : List Nat),
    (∃ t ∈ ts, last + 60 ≤ t) → debounce_fold last ts ≠ [] := by
  intro last ts
  induction ts generalizing last with
  | nil => intro h; simp at h
  | cons t ts ih =>
    intro h
    unfold debounce_fold
    split
    · rename_i hlt
      apply ih last
      rcases h with ⟨w, hw, hle⟩
      rcases List.mem_cons.mp hw with he | he
      · omega
      · exact ⟨w, he, hle⟩
    · simp

/-- C9 counterexample: after a step accepted at t = 1000 ms, a burst of N = 2
rotary edges at 1010 ms and 1020 ms (well inside one 60 ms window) yields ZERO
accepted steps, not exactly one — both edges fall within 60 ms of the
previously accepted step and are dropped. -/
theorem c9_counterexample :
    debounce_fold 0 [1000, 1010, 1020] = [1000] ∧
    ¬(1010 ∈ debounce_fold 0 [1000, 1010, 1020]) ∧
    ¬(1020 ∈ debounce_fold 0 [1000, 1010, 1020]) ∧
    1020 - 1010 < 60 := by
  refine ⟨by decide, by decide, by decide, by decide⟩

/-- C9 (amended): a rotary edge is accepted only when at least 60 ms has
elapsed since the last accepted step (or since the timer's initial value 0),
and consecutive accepted steps are always ≥ 60 ms apart; consequently any
burst of edges confined to a window shorter than 60 ms produces AT MOST one
accepted step — and exactly one precisely when some edge of the burst lies
≥ 60 ms after the previously accepted step.  Excess edges are dropped, never
queued: they simply do not appear in the accepted-step list. -/
theorem c9_debounce_amended :
    (∀ (last : Nat) (ts : List Nat) (x : Nat),
      x ∈ debounce_fold last ts → last + 60 ≤ x ∧ x ∈ ts) ∧
    (∀ (last : Nat) (ts : List Nat),
      (debounce_fold last ts).Pairwise (fun a b => a + 60 ≤ b)) ∧
    (∀ (last : Nat) (ts : List Nat) (lo hi : Nat),
      (∀ t ∈ ts, lo ≤ t ∧ t ≤ hi) → hi < lo + 60 →
      ((debounce_fold last ts).length ≤ 1 ∧
        ((debounce_fold last ts).length = 1 ↔ ∃ t ∈ ts, last + 60 ≤ t))) := by
  refine ⟨fun last ts x hx => ⟨debounce_mem_lb last ts x hx, debounce_mem_sub last ts x hx⟩,
    debounce_pairwise, ?_⟩
  intro last ts lo hi hwin hwid
  have hlen : (debounce_fold last ts).length ≤ 1 := by
    rcases hout : debounce_fold last ts with _ | ⟨a, _ | ⟨b, r⟩⟩
    · simp
    · simp
    · exfalso
      have hp := debounce_pairwise last ts
      rw [hout] at hp
      have hab : a + 60 ≤ b := (List.pairwise_cons.mp hp).1 b (List.mem_cons_self b r)
      have ha : a ∈ ts := debounce_mem_sub last ts a (by rw [hout]; simp)
      have hb : b ∈ ts := debounce_mem_sub last ts b (by rw [hout]; simp)
      have h1 := hwin a ha
      have h2 := hwin b hb
      omega
  refine ⟨hlen, ?_, ?_⟩
  · intro h1
    rcases hout : debounce_fold last ts with _ | ⟨a, r⟩
    · rw [hout] at h1; simp at h1
    · refine ⟨a, debounce_mem_sub last ts a (by rw [hout]; simp),
        debounce_mem_lb last ts a (by rw [hout]; simp)⟩
  · intro h
    have hne := debounce_accept_of_late last ts h
    have : 1 ≤ (debounce_fold last ts).length := by
      rcases hout : debounce_fold last ts with _ | ⟨a, r⟩
      · exact absurd hout hne
      · simp
    omega

/-- Witness for C9 (amended) at concrete inputs: the burst [70, 80] processed
with the timer at 0 is confined to a sub-60 ms window and yields exactly one
accepted step, since 70 ≥ 0 + 60. -/
theorem c9_debounce_amended_witness :
    (0 + 60 ≤ 70 ∧ 70 ∈ [70, 80]) ∧
    ((debounce_fold 0 [70, 80]).length ≤ 1 ∧
      ((debounce_fold 0 [70, 80]).length = 1 ↔ ∃ t ∈ [70, 80], 0 + 60 ≤ t)) := by
  refine ⟨c9_debounce_amended.1 0 [70, 80] 70 (by decide),
    c9_debounce_amended.2.2 0 [70, 80] 70 80 (by decide) (by decide)⟩

/- ------------------------------------------------------------------ -/
/- Catalog caps (C10)                                                  -/
/- ------------------------------------------------------------------ -/

lemma scanFoldersAux_eq (sd : List Char → Bool) (p : List Char) :
    ∀ (es : List DirEnt) (found : Nat),
      scanFoldersAux sd p es found =
        ((es.filter (fun e => keepFolder sd p e)).take (32 - found)).map
          (fun e => make_path p e.name) := by
  intro es
  induction es with
  | nil => intro found; simp [scanFoldersAux]
  | cons e es ih =>
    intro found
    by_cases hf : found < 32
    · by_cases hk : keepFolder sd p e = true
      · have h32 : 32 - found = (32 - (found + 1)) + 1 := by omega
        simp [scanFoldersAux, hf, hk, ih (found + 1), List.filter_cons, h32]
      · simp [scanFoldersAux, hf, hk, ih found, List.filter_cons]
    · have h0 : 32 - found = 0 := by omega
      simp [scanFoldersAux, hf, h0]

lemma scanWavsAux_eq (sr : List Char → Bool) (p : List Char) :
    ∀ (es : List DirEnt) (found : Nat),
      scanWavsAux sr p es found =
        ((es.filter (fun e => keepWav sr p e)).take (64 - found)).map
          (fun e => make_path p e.name) := by
  intro es
  induction es with
  | nil => intro found; simp [scanWavsAux]
  | cons e es ih =>
    intro found
    by_cases hf : found < 64
    · by_cases hk : keepWav sr p e = true
      · have h64 : 64 - found = (64 - (found + 1)) + 1 := by omega
        simp [scanWavsAux, hf, hk, ih (found + 1), List.filter_cons, h64]
      · simp [scanWavsAux, hf, hk, ih found, List.filter_cons]
    · have h0 : 64 - found = 0 := by omega
      simp [scanWavsAux, hf, h0]

/-- C10: the root folder scan returns at most `MAX_FOLDERS = 32` entries and
the per-folder track scan at most `MAX_WAV_FILES = 64`; each result is exactly
the first 32 (resp. 64) qualifying directory entries in `readdir` order —
qualifying entries encountered after the cap are silently ignored (they are
truncated away by the `take`), a hard catalog-size limit. -/
theorem c10_catalog_caps :
    (∀ (sd : List Char → Bool) (p : List Char) (es : List DirEnt),
      (scan_root_folders sd p es).length ≤ 32) ∧
    (∀ (sd : List Char → Bool) (p : List Char) (es : List DirEnt),
      scan_root_folders sd p es =
        ((es.filter (fun e => keepFolder sd p e)).take 32).map
          (fun e => make_path p e.name)) ∧
    (∀ (sr : List Char → Bool) (p : List Char) (es : List DirEnt),
      (scan_wavs_in_folder sr p es).length ≤ 64) ∧
    (∀ (sr : List Char → Bool) (p : List Char) (es : List DirEnt),
      scan_wavs_in_folder sr p es =
        ((es.filter (fun e => keepWav sr p e)).take 64).map
          (fun e => make_path p e.name)) := by
  have hf : ∀ (sd : List Char → Bool) (p : List Char) (es : List DirEnt),
      scan_root_folders sd p es =
        ((es.filter (fun e => keepFolder sd p e)).take 32).map
          (fun e => make_path p e.name) := by
    intro sd p es
    simpa using scanFoldersAux_eq sd p es 0
  have hw : ∀ (sr : List Char → Bool) (p : List Char) (es : List DirEnt),
      scan_wavs_in_folder sr p es =
        ((es.filter (fun e => keepWav sr p e)).take 64).map
          (fun e => make_path p e.name) := by
    intro sr p es
    simpa using scanWavsAux_eq sr p es 0
  refine ⟨?_, hf, ?_, hw⟩
  · intro sd p es
    rw [hf sd p es]
    simp only [List.length_map]
    exact le_trans (List.length_take_le 32 _) (le_refl 32)
  · intro sr p es
    rw [hw sr p es]
    simp only [List.length_map]
    exact le_trans (List.length_take_le 64 _) (le_refl 64)

/- ------------------------------------------------------------------ -/
/- Story announcements (C8)                                            -/
/- ------------------------------------------------------------------ -/

set_option maxRecDepth 40000 in
/-- C8 counterexample: for a track whose directory part is 258 ≥ 256
(`ANNOUNCE_PATH_MAX`) characters long, whose name "S1.wav" matches the story
pattern, and on a filesystem where the in-folder candidate
`<dir>/story1.wav` exists while `/sdcard/story1.wav` does not, the code
requests NO announcement — the `folder_len < ANNOUNCE_PATH_MAX` guard skips
the in-folder fallback, contradicting "an announcement is requested for the
first existing candidate". -/
theorem c8_counterexample :
    storyPattern (("S1.wav").data) = true ∧
    c8fs c8cand = true ∧
    c8fs (("/sdcard/story1.wav").data) = false ∧
    256 ≤ c8dir.length ∧
    lastSlashSplit c8full = some (c8dir, ("S1.wav").data) ∧
    selectStory c8fs c8full = none := by
  refine ⟨by decide, by decide, by decide, by decide, by decide, by decide⟩

lemma lastSlashSplit_base_eq {full dir base : List Char}
    (h : lastSlashSplit full = some (dir, base)) :
    (match lastSlashSplit full with
     | some pr => pr.2
     | none => full) = base := by
  rw [h]

/-- C8 (amended): for every track selection whose base name (after the last
'/') starts with 'S' or 's' followed by a decimal digit `n`, an announcement
is requested for the first existing candidate among `/sdcard/story<n>.wav`
and then `story<n>.wav` inside the track's own folder — PROVIDED the folder
part of the track's path is shorter than `ANNOUNCE_PATH_MAX = 256`
characters; when it is 256 characters or longer, only the root candidate is
consulted and the in-folder fallback is skipped.  If no candidate exists, or
the name does not match the pattern, no announcement is raised. -/
theorem c8_story_pattern_amended :
    (∀ (ex : List Char → Bool) (full dir base : List Char),
      lastSlashSplit full = some (dir, base) →
      storyPattern base = true →
      dir.length < 256 →
      selectStory ex full =
        (if ex (rootCand (storyDigit base)) = true then
          some (rootCand (storyDigit base))
        else if ex (make_path dir (storyFile (storyDigit base))) = true then
          some (make_path dir (storyFile (storyDigit base)))
        else none)) ∧
    (∀ (ex : List Char → Bool) (full dir base : List Char),
      lastSlashSplit full = some (dir, base) →
      storyPattern base = false →
      selectStory ex full = none) ∧
    (∀ (ex : List Char → Bool) (full dir base : List Char),
      lastSlashSplit full = some (dir, base) →
      storyPattern base = true →
      256 ≤ dir.length →
      selectStory ex full =
        (if ex (rootCand (storyDigit base)) = true then
          some (rootCand (storyDigit base))
        else none)) := by
  refine ⟨?_, ?_, ?_⟩
  · intro ex full dir base h1 h2 h3
    unfold selectStory
    rw [h1]
    simp only [h2, if_true]
    by_cases hr : ex (rootCand (storyDigit base)) = true
    · simp [hr]
    · simp [hr, h3]
  · intro ex full dir base h1 h2
    unfold selectStory
    rw [h1]
    simp [h2]
  · intro ex full dir base h1 h2 h3
    unfold selectStory
    rw [h1]
    simp only [h2, if_true]
    by_cases hr : ex (rootCand (storyDigit base)) = true
    · simp [hr]
    · have h4 : ¬(dir.length < 256) := by omega
      simp [hr, h4]

/-- Witness for C8 (amended) at concrete inputs: selecting "/sdcard/01/S3.wav"
on a filesystem with no story clips raises no announcement. -/
theorem c8_story_pattern_amended_witness :
    selectStory (fun _ => false) (("/sdcard/01/S3.wav").data) =
      (if (fun (_ : List Char) => false)
            (rootCand (storyDigit (("S3.wav").data))) = true then
        some (rootCand (storyDigit (("S3.wav").data)))
      else if (fun (_ : List Char) => false)
            (make_path (("/sdcard/01").data)
              (storyFile (storyDigit (("S3.wav").data)))) = true then
        some (make_path (("/sdcard/01").data)
          (storyFile (storyDigit (("S3.wav").data))))
      else none) := by
  exact c8_story_pattern_amended.1 (fun _ => false) (("/sdcard/01/S3.wav").data)
    (("/sdcard/01").data) (("S3.wav").data) (by decide) (by decide) (by decide)

/- ------------------------------------------------------------------ -/
/- Announcement priority (C1)                                          -/
/- ------------------------------------------------------------------ -/

lemma c1_abort_first :
    ∀ {s : Sys} {ls : List Lbl} {s2 : Sys}, Trace s ls s2 →
      s.pc = Pc.streamTrack → s.announceRequest = true →
      ∀ i, ls.get? i = some Lbl.arbStartAnn →
        ∃ j, j < i ∧ ls.get? j = some Lbl.trackStop := by
  intro s ls s2 tr
  induction tr with
  | nil => intro _ _ i hi; simp [List.get?] at hi
  | cons hstep htr ih =>
    intro hpc har i hi
    cases hstep with
    | envRequestAnn =>
      cases i with
      | zero => simp [List.get?] at hi
      | succ i =>
        obtain ⟨j, hj1, hj2⟩ := ih hpc rfl i (by simpa [List.get?] using hi)
        exact ⟨j + 1, by omega, by simpa [List.get?] using hj2⟩
    | envPlay idx =>
      cases i with
      | zero => simp [List.get?] at hi
      | succ i =>
        obtain ⟨j, hj1, hj2⟩ := ih hpc har i (by simpa [List.get?] using hi)
        exact ⟨j + 1, by omega, by simpa [List.get?] using hj2⟩
    | trackStop h1 h2 =>
      cases i with
      | zero => simp [List.get?] at hi
      | succ i => exact ⟨0, by omega, by simp [List.get?]⟩
    | trackWrite h1 h2 => rw [har] at h2; cases h2
    | trackEof h1 h2 => rw [har] at h2; cases h2
    | arbIdle h1 h2 h3 => rw [hpc] at h1; cases h1
    | arbStartAnn h1 h2 => rw [hpc] at h1; cases h1
    | arbDropNav h1 h2 h3 h4 => rw [hpc] at h1; cases h1
    | arbDropEmpty h1 h2 h3 h4 h5 => rw [hpc] at h1; cases h1
    | arbDropIdx h1 h2 h3 h4 h5 h6 => rw [hpc] at h1; cases h1
    | arbStartTrack h1 h2 h3 h4 h5 h6 h7 => rw [hpc] at h1; cases h1
    | postAnn h1 h2 => rw [hpc] at h1; cases h1
    | postNone h1 h2 => rw [hpc] at h1; cases h1
    | annWrite h1 h2 => rw [hpc] at h1; cases h1
    | annEof h1 h2 => rw [hpc] at h1; cases h1
    | annStop h1 h2 => rw [hpc] at h1; cases h1

/-- C1: in the v2 arbiter (the single audio task of noor_v2, with
`request_announcement` and the play-intent writers as environment steps),
(1) a track stream is only started at an iteration that reads the pending
flag as false — playback never starts while an announcement request is
pending; (2) a chunk of track audio is only written when the pending flag
reads false — playback never proceeds/resumes while one is pending (a
pending request forces the very next chunk check to abort); and (3) in every
execution that begins inside a track stream with an announcement pending,
any start of an announcement stream is strictly preceded by the track
stream's abort (`trackStop`, the stream call returning Aborted) — the
in-progress track stream halts before the announcement's stream call
begins. -/
theorem c1_announcement_priority :
    (∀ s s1 : Sys, Step s Lbl.arbStartTrack s1 → s.announceRequest = false) ∧
    (∀ s s1 : Sys, Step s Lbl.trackWrite s1 → s.announceRequest = false) ∧
    (∀ (s : Sys) (ls : List Lbl) (s2 : Sys), Trace s ls s2 →
      s.pc = Pc.streamTrack → s.announceRequest = true →
      ∀ i, ls.get? i = some Lbl.arbStartAnn →
        ∃ j, j < i ∧ ls.get? j = some Lbl.trackStop) := by
  refine ⟨?_, ?_, fun s ls s2 tr => c1_abort_first tr⟩
  · intro s s1 h
    cases h
    assumption
  · intro s s1 h
    cases h
    assumption

/-- Witness for C1 at a concrete state and a concrete three-step execution
(track stream aborts, the post-stream check clears the playing state, the
announcement stream starts). -/
theorem c1_announcement_priority_witness :
    (Sys.mk Pc.top false true 0 true 1).announceRequest = false ∧
    (∃ j, j < 2 ∧
      [Lbl.trackStop, Lbl.postAnn, Lbl.arbStartAnn].get? j = some Lbl.trackStop) := by
  constructor
  · exact c1_announcement_priority.1 (Sys.mk Pc.top false true 0 true 1)
      { Sys.mk Pc.top false true 0 true 1 with pc := Pc.streamTrack }
      (Step.arbStartTrack (Sys.mk Pc.top false true 0 true 1) rfl rfl rfl rfl
        (by norm_num) (by norm_num) (by norm_num))
  · exact c1_announcement_priority.2.2 (Sys.mk Pc.streamTrack true true 0 true 1)
      [Lbl.trackStop, Lbl.postAnn, Lbl.arbStartAnn]
      (Sys.mk Pc.streamAnn false false (-1) true 1)
      (Trace.cons (Step.trackStop (Sys.mk Pc.streamTrack true true 0 true 1) rfl rfl)
        (Trace.cons (Step.postAnn (Sys.mk Pc.postTrack true true 0 true 1) rfl rfl)
          (Trace.cons (Step.arbStartAnn (Sys.mk Pc.top true false (-1) true 1) rfl rfl)
            (Trace.nil (Sys.mk Pc.streamAnn false false (-1) true 1)))))
      rfl rfl 2 rfl
